import Mathlib

/-!
Verification of the PiliPili_Strm watch-classify-synchronize pipeline.

This file gives a shallow embedding of the Rust sources under `src/` and
proves (or refutes) the specification claims about them.  Paths are modelled
as lists of components; the filesystem as an association list of files plus a
list of directories; the asynchronous strategies as pure state transformers
returning `Except`.  External transfer tools (rsync, rclone) are modelled
only through the command lines the code builds for them, plus a
transfer-semantics function for the exclude-by-suffix contract of §6 of the
spec.
-/

namespace PiliPili

/-! ## Paths

A path is a list of components.  File-name and extension splitting follow
Rust's `std::path` semantics: the extension is the portion of the file name
after the final dot, with no extension for dot-less names and for hidden
files such as `.hidden`. -/

abbrev Path := List String

def Path.fileName (p : Path) : Option String := p.getLast?

/-- Rust `Path::extension` on a file name: the portion after the last dot,
provided that dot is not the leading character (and the name is not `..`). -/
def rustExtension (name : String) : Option String :=
  let l := name.data
  if l = ['.', '.'] then none
  else
    match l.reverse.findIdx? (fun c => c = '.') with
    | none => none
    | some j =>
      if l.length - 1 - j = 0 then none
      else some (String.mk (l.drop (l.length - j)))

/-- Rust `Path::file_stem` on a file name. -/
def rustFileStem (name : String) : String :=
  match rustExtension name with
  | none => name
  | some ext => String.mk (name.data.take (name.data.length - (ext.data.length + 1)))

/-- Rust `Path::with_extension` applied to a file name. -/
def withExtensionName (name ext : String) : String :=
  if ext = "" then rustFileStem name else rustFileStem name ++ "." ++ ext

def Path.extension (p : Path) : Option String :=
  match p.getLast? with
  | some n => rustExtension n
  | none => none

/-- Rust `Path::with_extension`: replace the extension of the last
component; a path without a file name is returned unchanged. -/
def Path.withExtension : Path → String → Path
  | [], _ => []
  | [n], e => [withExtensionName n e]
  | x :: y :: rest, e => x :: Path.withExtension (y :: rest) e

/-- Textual rendering of a path (Rust `Path::to_str`, for the path values
used here). -/
def Path.render (p : Path) : String := String.intercalate "/" p

/-- Rust `Path::strip_prefix`: the remainder of `p` after `base`, when
`base` is a component-wise leading part of `p`. -/
def Path.relativeTo (p base : Path) : Option Path :=
  if base.isPrefixOf p then some (p.drop base.length) else none

/-! ## Strings -/

/-- ASCII lowercasing (`Char.toLower` only affects ASCII uppercase, matching
Rust's `eq_ignore_ascii_case`). -/
def asciiLower (s : String) : String := String.mk (s.data.map Char.toLower)

def eqIgnoreAsciiCase (a b : String) : Bool := asciiLower a == asciiLower b

/-- Substring containment on character lists (Rust `str::contains`). -/
def listContainsSub (hay needle : List Char) : Bool :=
  match hay with
  | [] => needle.isEmpty
  | c :: t => needle.isPrefixOf (c :: t) || listContainsSub t needle

def strContains (hay needle : String) : Bool := listContainsSub hay.data needle.data

def strEndsWith (s suffix : String) : Bool :=
  suffix.data.reverse.isPrefixOf s.data.reverse

/-! ## SyncConfig (src/infrastructure/strm/sync_config.rs)

`ignore_regex` holds the compiled matchers: `MediaDetector::new` compiles
each pattern with `Regex::new` and fails on invalid patterns, so a
constructed detector carries one total matching function per pattern.
`name_replacements` is unused by the verified code and omitted. -/

structure SyncConfig where
  video_extensions : List String
  audio_extensions : List String
  ignore_extensions : List String
  ignore_keywords : List String
  ignore_regex : List (String → Bool)
  soft_delete_dir : Option Path
  rclone_remote : Option String
  rsync_args : Option (List String)

/-! ## MediaDetector (src/infrastructure/strm/media_detector.rs) -/

def check_extension (p : Path) (extensions : List String) : Bool :=
  match Path.extension p with
  | some ext => extensions.any (fun e => eqIgnoreAsciiCase e ext)
  | none => false

def is_video_file (cfg : SyncConfig) (p : Path) : Bool :=
  check_extension p cfg.video_extensions

def is_audio_file (cfg : SyncConfig) (p : Path) : Bool :=
  check_extension p cfg.audio_extensions

def is_media_file (cfg : SyncConfig) (p : Path) : Bool :=
  is_video_file cfg p || is_audio_file cfg p

/-- `MediaDetector::should_ignore`: early-return chain over extension,
keyword and regex rules, all evaluated on the file name. -/
def should_ignore (cfg : SyncConfig) (p : Path) : Bool :=
  match Path.fileName p with
  | none => false
  | some file_name =>
    if (match rustExtension file_name with
        | some ext => cfg.ignore_extensions.any (fun e => eqIgnoreAsciiCase e ext)
        | none => false) then true
    else if cfg.ignore_keywords.any (fun k => strContains file_name k) then true
    else if cfg.ignore_regex.any (fun r => r file_name) then true
    else false

/-! Spec-worded conditions for C8: the three clauses of `ShouldIgnore` as
the spec states them, to be compared with the code's early-return chain. -/

def ignoresByExtension (cfg : SyncConfig) (p : Path) : Bool :=
  match Path.extension p with
  | some ext => cfg.ignore_extensions.any (fun e => eqIgnoreAsciiCase e ext)
  | none => false

def ignoresByKeyword (cfg : SyncConfig) (p : Path) : Bool :=
  match Path.fileName p with
  | some n => cfg.ignore_keywords.any (fun k => strContains n k)
  | none => false

def ignoresByRegex (cfg : SyncConfig) (p : Path) : Bool :=
  match Path.fileName p with
  | some n => cfg.ignore_regex.any (fun r => r n)
  | none => false

lemma ifOr3 (a b c : Bool) :
    (if a then true else if b then true else if c then true else false) = (a || b || c) := by
  cases a <;> cases b <;> cases c <;> simp

lemma ifOr2 (b c : Bool) :
    (if b then true else if c then true else false) = (b || c) := by
  cases b <;> cases c <;> simp

lemma orComm3 (a b c : Bool) : (a || b || c) = (c || b || a) := by
  cases a <;> cases b <;> cases c <;> simp

/-- C8: `ShouldIgnore(path)` is true exactly when the extension rule, the
keyword rule or the regex rule fires, and the disjunction is
order-independent (shown by comparing with the reversed evaluation
order).  The checks are pure functions, side-effect free by construction. -/
theorem should_ignore_union (cfg : SyncConfig) (p : Path) :
    should_ignore cfg p
      = (ignoresByExtension cfg p || ignoresByKeyword cfg p || ignoresByRegex cfg p) ∧
    (ignoresByExtension cfg p || ignoresByKeyword cfg p || ignoresByRegex cfg p)
      = (ignoresByRegex cfg p || ignoresByKeyword cfg p || ignoresByExtension cfg p) := by
  refine ⟨?_, orComm3 _ _ _⟩
  unfold should_ignore ignoresByExtension ignoresByKeyword ignoresByRegex Path.extension
    Path.fileName
  cases hn : p.getLast? with
  | none => simp
  | some n =>
    simp only
    cases hext : rustExtension n with
    | none => simp only [ifOr2, Bool.false_eq_true, if_false, Bool.false_or]
    | some ext => simp only [ifOr3]

/-! ## Filesystem model

Files are an association list from path to textual content (first entry
wins, so a write shadows older entries); directories are a separate list.
All strategy and generator operations of the Rust code become pure state
transformers over this model; IO failures other than the ones the code
checks for (missing entries) are outside the model. -/

structure FS where
  files : List (Path × String)
  dirs : List Path
deriving DecidableEq, Repr

def FS.lookupFile (fs : FS) (p : Path) : Option String := fs.files.lookup p

def FS.hasFile (fs : FS) (p : Path) : Bool := (fs.lookupFile p).isSome

def FS.hasDir (fs : FS) (p : Path) : Bool := fs.dirs.contains p

def FS.write (fs : FS) (p : Path) (content : String) : FS :=
  { fs with files := (p, content) :: fs.files }

def FS.removeFile (fs : FS) (p : Path) : FS :=
  { fs with files := fs.files.filter (fun e => !(e.1 == p)) }

/-- `create_dir_all` when the directory is missing (ancestors are implicit
in this model). -/
def FS.ensureDir (fs : FS) (p : Path) : FS :=
  if fs.dirs.contains p then fs else { fs with dirs := p :: fs.dirs }

/-! ## StrmGenerator (src/infrastructure/strm/strm_generator.rs) -/

def strmPathOf (media : Path) : Path := Path.withExtension media "strm"

/-- `StrmGenerator::generate_strm`: derive the placeholder path by replacing
the extension with `strm`; if it already exists return it unchanged,
otherwise write the media path's textual form as its whole content.  (The
`to_str` failure for non-UTF-8 paths cannot occur for the string-component
paths of this model.) -/
def generate_strm (fs : FS) (media : Path) : Path × FS :=
  let strm := strmPathOf media
  if fs.hasFile strm then (strm, fs)
  else (strm, fs.write strm (Path.render media))

/-- The extension test of `generate_strm_for_dir` (performed inline in the
source, case-insensitively, over the video and audio sets). -/
def mediaExtHit (cfg : SyncConfig) (p : Path) : Bool :=
  match Path.extension p with
  | some ext =>
    cfg.video_extensions.any (fun e => eqIgnoreAsciiCase e ext) ||
      cfg.audio_extensions.any (fun e => eqIgnoreAsciiCase e ext)
  | none => false

/-- Strict descendant: `p` is a file somewhere under directory `dir`. -/
def isUnder (p dir : Path) : Bool := dir.isPrefixOf p && decide (dir.length < p.length)

/-- The files of the tree rooted at `dir` (the source walks them with an
explicit directory stack; traversal order is unspecified, this model fixes
the enumeration order of the association list). -/
def filesUnder (fs : FS) (dir : Path) : List Path :=
  (fs.files.map Prod.fst).filter (fun p => isUnder p dir)

def genStep (cfg : SyncConfig) (acc : FS × List Path) (p : Path) : FS × List Path :=
  if mediaExtHit cfg p then
    let r := generate_strm acc.1 p
    (r.2, acc.2 ++ [r.1])
  else acc

/-- `StrmGenerator::generate_strm_for_dir`: iterative walk generating a
placeholder for every media file under `dir`. -/
def generate_strm_for_dir (cfg : SyncConfig) (fs : FS) (dir : Path) : FS × List Path :=
  (filesUnder fs dir).foldl (genStep cfg) (fs, [])

lemma lookupFile_write_self (fs : FS) (p : Path) (c : String) :
    (fs.write p c).lookupFile p = some c := by
  simp [FS.write, FS.lookupFile, List.lookup]

lemma hasFile_write_self (fs : FS) (p : Path) (c : String) :
    (fs.write p c).hasFile p = true := by
  simp [FS.hasFile, lookupFile_write_self]

lemma hasFile_write_mono (fs : FS) (p q : Path) (c : String)
    (h : fs.hasFile q = true) : (fs.write p c).hasFile q = true := by
  simp only [FS.hasFile, FS.lookupFile, FS.write, List.lookup] at *
  cases hq : (q == p) with
  | true => simp [hq]
  | false => simpa [hq] using h

lemma generate_strm_fst (fs : FS) (media : Path) :
    (generate_strm fs media).1 = strmPathOf media := by
  unfold generate_strm
  by_cases h : fs.hasFile (strmPathOf media) <;> simp [h]

lemma generate_strm_creates (fs : FS) (media : Path) :
    ((generate_strm fs media).2).hasFile (strmPathOf media) = true := by
  unfold generate_strm
  cases h : fs.hasFile (strmPathOf media) with
  | true => simp [h]
  | false => simp [h, hasFile_write_self]

lemma generate_strm_mono (fs : FS) (media q : Path)
    (h : fs.hasFile q = true) : ((generate_strm fs media).2).hasFile q = true := by
  unfold generate_strm
  cases hs : fs.hasFile (strmPathOf media) with
  | true => simpa [hs] using h
  | false => simp [hs, hasFile_write_mono _ _ _ _ h]

lemma generate_strm_dirs (fs : FS) (media : Path) :
    ((generate_strm fs media).2).dirs = fs.dirs := by
  unfold generate_strm
  cases hs : fs.hasFile (strmPathOf media) <;> simp [hs, FS.write]

/-- C6: `Codec.Generate` is idempotent.  The derived placeholder path is the
media path with its extension replaced by `strm`; if it already exists the
call returns it without writing; a second call on the state produced by a
first call is a no-op; and when the placeholder was absent, the first call
writes the media path's textual form as the placeholder's entire content. -/
theorem generate_strm_idempotent (fs : FS) (media : Path) :
    (generate_strm fs media).1 = strmPathOf media ∧
    generate_strm ((generate_strm fs media).2) media = generate_strm fs media ∧
    (fs.hasFile (strmPathOf media) = true → (generate_strm fs media).2 = fs) ∧
    (fs.hasFile (strmPathOf media) = false →
      ((generate_strm fs media).2).lookupFile (strmPathOf media)
        = some (Path.render media)) := by
  refine ⟨generate_strm_fst fs media, ?_, ?_, ?_⟩
  · have hc := generate_strm_creates fs media
    have hf := generate_strm_fst fs media
    unfold generate_strm at *
    cases hs : fs.hasFile (strmPathOf media) with
    | true => simp [hs]
    | false =>
      simp only [hs, Bool.false_eq_true, if_false]
      simp only [hs, Bool.false_eq_true, if_false] at hc
      simp [hc]
  · intro h
    unfold generate_strm
    simp [h]
  · intro h
    unfold generate_strm
    simp [h, lookupFile_write_self]

/-- Witness for C6 at a concrete filesystem: one media file whose
placeholder does not yet exist, and one whose placeholder does. -/
theorem generate_strm_idempotent_witness :
    (generate_strm ⟨[], []⟩ ["src", "ep01.mkv"]).2.lookupFile ["src", "ep01.strm"]
      = some "src/ep01.mkv" ∧
    (generate_strm ⟨[(["src", "ep01.strm"], "old")], []⟩ ["src", "ep01.mkv"]).2
      = ⟨[(["src", "ep01.strm"], "old")], []⟩ := by
  constructor
  · have h := (generate_strm_idempotent ⟨[], []⟩ ["src", "ep01.mkv"]).2.2.2 (by decide)
    have e1 : strmPathOf ["src", "ep01.mkv"] = ["src", "ep01.strm"] := by decide
    have e2 : Path.render ["src", "ep01.mkv"] = "src/ep01.mkv" := by decide
    rw [e1, e2] at h
    exact h
  · exact (generate_strm_idempotent
      ⟨[(["src", "ep01.strm"], "old")], []⟩ ["src", "ep01.mkv"]).2.2.1 (by decide)

/-! ## Watch pipeline (src/infrastructure/strm/file_watcher.rs and
src/infrastructure/strm/file_sync.rs)

`FileWatcher::handle_event` filters every path of an incoming notify event
through `should_ignore` and hands the survivors, with the event kind, to the
callback installed by `FileSync::watch_directory`.  The callback's effect is
modelled as the list of strategy/generator actions it requests. -/

inductive EventKind where
  | Created
  | Modified
  | Removed
  | Other
deriving DecidableEq, Repr

structure Event where
  paths : List Path
  kind : EventKind
deriving DecidableEq, Repr

inductive SyncErr where
  | configError (msg : String)
  | pathError (msg : String)
  | ioError (msg : String)
  | unsupportedOperation (op : String)
  | rsyncError (msg : String)
  | rcloneError (msg : String)
deriving DecidableEq, Repr

inductive Action where
  | genStrm (target : Path)
  | deleteEntry (target : Path)
deriving DecidableEq, Repr

/-- The per-path dispatch of the closure in `FileSync::watch_directory`:
Create/Modify of a media file generates a placeholder at the mapped
destination path; Remove requests a strategy delete of the mapped
destination path (with no media test and no extension change); everything
else is a no-op.  A path not under the watched root is a path error. -/
def watch_dispatch (cfg : SyncConfig) (src dest p : Path) (kind : EventKind) :
    Except SyncErr (List Action) :=
  match kind with
  | .Created | .Modified =>
    if is_media_file cfg p then
      match Path.relativeTo p src with
      | some rel => .ok [.genStrm (dest ++ rel)]
      | none => .error (.pathError "event path not under watched root")
    else .ok []
  | .Removed =>
    match Path.relativeTo p src with
    | some rel => .ok [.deleteEntry (dest ++ rel)]
    | none => .error (.pathError "event path not under watched root")
  | .Other => .ok []

def handle_event_paths (cfg : SyncConfig) (src dest : Path) (kind : EventKind) :
    List Path → Except SyncErr (List Action)
  | [] => .ok []
  | p :: rest =>
    if should_ignore cfg p then handle_event_paths cfg src dest kind rest
    else
      match watch_dispatch cfg src dest p kind with
      | .error e => .error e
      | .ok acts =>
        match handle_event_paths cfg src dest kind rest with
        | .error e => .error e
        | .ok more => .ok (acts ++ more)

/-- `FileWatcher::handle_event` feeding the `watch_directory` callback (the
100 ms sleep and the log-only concerns are timing and omitted; the detector
is always initialised because the config's regexes are pre-compiled). -/
def handle_event (cfg : SyncConfig) (src dest : Path) (ev : Event) :
    Except SyncErr (List Action) :=
  handle_event_paths cfg src dest ev.kind ev.paths

/-- Configuration used by the concrete watch-pipeline scenarios: `mkv`/`mp4`
video, `txt` on the ignore-extension list, quarantine configured (the
watcher only exists when `soft_delete_dir` is set). -/
def watchCfg : SyncConfig :=
  { video_extensions := ["mp4", "mkv"]
    audio_extensions := ["mp3"]
    ignore_extensions := ["txt"]
    ignore_keywords := []
    ignore_regex := []
    soft_delete_dir := some ["quarantine"]
    rclone_remote := none
    rsync_args := none }

/-- C1 counterexample.  Two concrete Removed events under the watched root
`src` refute the claim: (1) the removal of the ignored file
`src/notes.txt` produces no `Strategy.Delete` at all — removals do not
propagate unconditionally, the ignore filter applies to every event kind;
(2) the removal of the previously-synced media file `src/ep01.mkv` requests
`Strategy.Delete` of `dst/ep01.mkv` — the mapped path with its original
extension — and not of `dst/ep01.strm` as the claim states. -/
theorem removed_event_counterexample :
    handle_event watchCfg ["src"] ["dst"] ⟨[["src", "notes.txt"]], .Removed⟩ = .ok [] ∧
    handle_event watchCfg ["src"] ["dst"] ⟨[["src", "ep01.mkv"]], .Removed⟩
      = .ok [.deleteEntry ["dst", "ep01.mkv"]] ∧
    (["dst", "ep01.mkv"] : Path) ≠ ["dst", "ep01.strm"] := by
  refine ⟨by rfl, by rfl, by decide⟩

/-- C1 amended: for every Removed event whose path lies under the watched
source root and is not filtered by `ShouldIgnore`, the pipeline requests
exactly one `Strategy.Delete` of the mapped destination path — destination =
`dst ++ (path − src)`, keeping the original file name (no media test is
applied); ignored paths produce no action. -/
theorem handle_event_removed_action (cfg : SyncConfig) (src dest p rel : Path)
    (h1 : should_ignore cfg p = false) (h2 : Path.relativeTo p src = some rel) :
    handle_event cfg src dest ⟨[p], .Removed⟩ = .ok [.deleteEntry (dest ++ rel)] := by
  simp [handle_event, handle_event_paths, h1, watch_dispatch, h2]

/-- Witness for the amended C1 at the concrete removed media file. -/
theorem handle_event_removed_action_witness :
    handle_event watchCfg ["src"] ["dst"] ⟨[["src", "ep01.mkv"]], .Removed⟩
      = .ok [.deleteEntry (["dst"] ++ ["ep01.mkv"])] :=
  handle_event_removed_action watchCfg ["src"] ["dst"] ["src", "ep01.mkv"] ["ep01.mkv"]
    (by decide) (by decide)

/-! ## Transfer strategies (src/infrastructure/strm/sync_strategy.rs)

`LocalSyncStrategy` shells out to rsync and performs deletes on the local
filesystem; `RcloneSyncStrategy` shells out to rclone against the configured
remote.  `FileSync::new` picks rclone exactly when `rclone_remote` is set. -/

/-- The argument list `LocalSyncStrategy::build_rsync_command` constructs. -/
def build_rsync_command (cfg : SyncConfig) (src dest : Path) (delete : Bool) : List String :=
  ["-avz", "--progress", Path.render src ++ "/"]
    ++ cfg.video_extensions.foldr (fun e acc => "--exclude" :: ("*." ++ e) :: acc) []
    ++ cfg.audio_extensions.foldr (fun e acc => "--exclude" :: ("*." ++ e) :: acc) []
    ++ (if delete then ["--delete"] else [])
    ++ [Path.render dest]
    ++ cfg.rsync_args.getD []

/-- Modelled from the spec (§6 external transfer tool contract): the
mirroring tool replicates every file of the source tree except those whose
name matches an `exclude`-by-suffix filter `*.{ext}`.  The tool itself is an
external collaborator, not code of this repository; only the filters the
code passes to it are code-derived. -/
def excludedBySuffix (exts : List String) (name : String) : Bool :=
  exts.any (fun e => strEndsWith name ("." ++ e))

/-- The filesystem effect of running the rsync/rclone replication the code
requests: every file under `src` whose name is not excluded by the media
suffix filters is written at the mapped destination path; with
`delete = true` (strict mirror) destination entries whose relative path has
no counterpart under the source are removed first. -/
def replicateEffect (cfg : SyncConfig) (fs : FS) (src dest : Path) (delete : Bool) : FS :=
  let mediaExts := cfg.video_extensions ++ cfg.audio_extensions
  let base :=
    if delete then
      { fs with files := fs.files.filter (fun e =>
          !(isUnder e.1 dest) || (fs.hasFile (src ++ e.1.drop dest.length))) }
    else fs
  (filesUnder fs src).foldl (fun acc p =>
      match Path.fileName p with
      | none => acc
      | some n =>
        if excludedBySuffix mediaExts n then acc
        else
          match fs.lookupFile p, Path.relativeTo p src with
          | some c, some rel => acc.write (dest ++ rel) c
          | _, _ => acc)
    base

/-- `LocalSyncStrategy::delete`: with a quarantine directory configured the
entry is renamed into it under its own file name; otherwise it is removed.
`tokio::fs::rename`/`remove_file` on a missing entry is an IO error. -/
def local_strategy_delete (cfg : SyncConfig) (fs : FS) (p : Path) : Except SyncErr FS :=
  match cfg.soft_delete_dir with
  | some quarantine =>
    match Path.fileName p with
    | some name =>
      if fs.hasFile p then
        .ok ((fs.removeFile p).write (quarantine ++ [name]) ((fs.lookupFile p).getD ""))
      else .error (.ioError "rename: source missing")
    | none => .error (.pathError "Invalid file name")
  | none =>
    if fs.hasFile p then .ok (fs.removeFile p)
    else .error (.ioError "remove_file: missing")

/-- `RcloneSyncStrategy::delete`: runs `rclone delete remote:path` against
the remote filesystem.  The quarantine directory plays no role here — the
source never consults `soft_delete_dir` on this path. -/
def rclone_strategy_delete (cfg : SyncConfig) (remoteFs : FS) (p : Path) :
    Except SyncErr FS :=
  match cfg.rclone_remote with
  | none => .error (.configError "Rclone remote not configured")
  | some _ =>
    if remoteFs.hasFile p then .ok (remoteFs.removeFile p)
    else .error (.rcloneError "delete: not found")

/-- Config with both a quarantine directory and an rclone remote: the
backend `FileSync::new` selects is the rclone one. -/
def rcloneCfg : SyncConfig :=
  { video_extensions := ["mp4", "mkv"]
    audio_extensions := ["mp3"]
    ignore_extensions := []
    ignore_keywords := []
    ignore_regex := []
    soft_delete_dir := some ["quarantine"]
    rclone_remote := some "remote"
    rsync_args := none }

/-- C4 counterexample.  With a quarantine directory configured, the remote
backend's `Delete` removes `dst/ep01.strm` outright: afterwards the entry is
gone and nothing was placed in the quarantine directory, refuting the claim
that every backend implements the soft delete. -/
theorem rclone_delete_quarantine_counterexample :
    rclone_strategy_delete rcloneCfg ⟨[(["dst", "ep01.strm"], "src/ep01.mkv")], []⟩
        ["dst", "ep01.strm"]
      = .ok ⟨[], []⟩ ∧
    FS.hasFile ⟨[], []⟩ ["quarantine", "ep01.strm"] = false := by
  exact ⟨by rfl, by decide⟩

/-- C4 amended: the local backend's `Delete` moves the entry into the
configured quarantine directory under its own file name, and deletes it
outright when no quarantine directory is configured; the remote (rclone)
backend always deletes outright, ignoring any configured quarantine
directory. -/
theorem strategy_delete_behaviour (cfg : SyncConfig) (fs : FS) (p : Path)
    (name : String) (q : Path) (hn : Path.fileName p = some name)
    (hp : fs.hasFile p = true) :
    (cfg.soft_delete_dir = some q →
      local_strategy_delete cfg fs p
        = .ok ((fs.removeFile p).write (q ++ [name]) ((fs.lookupFile p).getD ""))) ∧
    (cfg.soft_delete_dir = none →
      local_strategy_delete cfg fs p = .ok (fs.removeFile p)) ∧
    (∀ remote, cfg.rclone_remote = some remote →
      rclone_strategy_delete cfg fs p = .ok (fs.removeFile p)) := by
  refine ⟨?_, ?_, ?_⟩
  · intro hq
    simp [local_strategy_delete, hq, hn, hp]
  · intro hq
    simp [local_strategy_delete, hq, hp]
  · intro remote hr
    simp [rclone_strategy_delete, hr, hp]

/-- Witness for the amended C4: concrete quarantine move, plain delete, and
rclone delete. -/
theorem strategy_delete_behaviour_witness :
    local_strategy_delete rcloneCfg ⟨[(["dst", "ep01.strm"], "c")], []⟩ ["dst", "ep01.strm"]
      = .ok ⟨[(["quarantine", "ep01.strm"], "c")], []⟩ ∧
    local_strategy_delete watchCfg ⟨[(["dst", "a.txt"], "c")], []⟩ ["dst", "a.txt"]
      = .ok ⟨[(["quarantine", "a.txt"], "c")], []⟩ ∧
    rclone_strategy_delete rcloneCfg ⟨[(["dst", "ep01.strm"], "c")], []⟩ ["dst", "ep01.strm"]
      = .ok ⟨[], []⟩ := by
  have h1 := (strategy_delete_behaviour rcloneCfg ⟨[(["dst", "ep01.strm"], "c")], []⟩
    ["dst", "ep01.strm"] "ep01.strm" ["quarantine"] (by decide) (by decide)).1 (by decide)
  have h2 := (strategy_delete_behaviour watchCfg ⟨[(["dst", "a.txt"], "c")], []⟩
    ["dst", "a.txt"] "a.txt" ["quarantine"] (by decide) (by decide)).1 (by decide)
  have h3 := (strategy_delete_behaviour rcloneCfg ⟨[(["dst", "ep01.strm"], "c")], []⟩
    ["dst", "ep01.strm"] "ep01.strm" ["quarantine"] (by decide) (by decide)).2.2
    "remote" (by decide)
  refine ⟨?_, ?_, ?_⟩
  · rw [h1]; rfl
  · rw [h2]; rfl
  · rw [h3]; rfl

/-! ## Sync orchestrator (src/infrastructure/strm/file_sync.rs)

`FileSync::sync_directory` (specialised to the local strategy, which
`FileSync::new` selects when `rclone_remote` is unset): ensure the
destination directory, generate placeholders for every media file under the
source tree, then match on the operation string.  The result triple is
(final filesystem, spawned transfer-tool command lines, outcome); the error
paths of the helpers other than the checks modelled here are IO failures
outside the model. -/

def sync_directory (cfg : SyncConfig) (fs : FS) (src dest : Path) (operation : String) :
    FS × List (List String) × Except SyncErr Unit :=
  let fs1 := fs.ensureDir dest
  let fs2 := (generate_strm_for_dir cfg fs1 src).1
  if operation = "copy" then
    (replicateEffect cfg fs2 src dest false, [build_rsync_command cfg src dest false], .ok ())
  else if operation = "sync" then
    (replicateEffect cfg fs2 src dest true, [build_rsync_command cfg src dest true], .ok ())
  else
    (fs2, [], .error (.unsupportedOperation operation))

lemma genStep_hasFile_mono (cfg : SyncConfig) (acc : FS × List Path) (p q : Path)
    (h : acc.1.hasFile q = true) : ((genStep cfg acc p).1).hasFile q = true := by
  unfold genStep
  cases hm : mediaExtHit cfg p with
  | true => simpa using generate_strm_mono acc.1 p q h
  | false => simpa using h

lemma genFold_hasFile_mono (cfg : SyncConfig) (ps : List Path) :
    ∀ (acc : FS × List Path) (q : Path), acc.1.hasFile q = true →
      ((ps.foldl (genStep cfg) acc).1).hasFile q = true := by
  induction ps with
  | nil => intro acc q h; simpa using h
  | cons p rest ih =>
    intro acc q h
    simpa using ih (genStep cfg acc p) q (genStep_hasFile_mono cfg acc p q h)

lemma genFold_covers (cfg : SyncConfig) (ps : List Path) :
    ∀ (acc : FS × List Path) (p : Path), p ∈ ps → mediaExtHit cfg p = true →
      ((ps.foldl (genStep cfg) acc).1).hasFile (strmPathOf p) = true := by
  induction ps with
  | nil => intro acc p h; cases h
  | cons a rest ih =>
    intro acc p hmem hm
    rcases List.mem_cons.mp hmem with h | h
    · subst h
      rw [List.foldl_cons]
      apply genFold_hasFile_mono
      unfold genStep
      simpa [hm] using generate_strm_creates acc.1 p
    · exact ih (genStep cfg acc a) p h hm

lemma genStep_dirs (cfg : SyncConfig) (acc : FS × List Path) (p : Path) :
    ((genStep cfg acc p).1).dirs = acc.1.dirs := by
  unfold genStep
  cases hm : mediaExtHit cfg p with
  | true => simpa using generate_strm_dirs acc.1 p
  | false => simp

lemma genFold_dirs (cfg : SyncConfig) (ps : List Path) :
    ∀ (acc : FS × List Path), ((ps.foldl (genStep cfg) acc).1).dirs = acc.1.dirs := by
  induction ps with
  | nil => intro acc; rfl
  | cons p rest ih =>
    intro acc
    simpa [genStep_dirs] using ih (genStep cfg acc p)

lemma ensureDir_hasDir (fs : FS) (d : Path) : (fs.ensureDir d).hasDir d = true := by
  unfold FS.ensureDir FS.hasDir
  cases h : fs.dirs.contains d with
  | true => simpa using h
  | false => simp

lemma ensureDir_files (fs : FS) (d : Path) : (fs.ensureDir d).files = fs.files := by
  unfold FS.ensureDir
  cases h : fs.dirs.contains d <;> simp [h]

lemma filesUnder_ensureDir (fs : FS) (d src : Path) :
    filesUnder (fs.ensureDir d) src = filesUnder fs src := by
  unfold filesUnder
  rw [ensureDir_files]

/-- C10: for every operation string other than `copy` and `sync`,
`FileSync::sync_directory` fails with `UnsupportedOperation` and spawns no
transfer process — but the failure is not atomic: by the time the operation
string is validated the destination directory has already been ensured and a
placeholder has already been generated for every media file of the source
tree. -/
theorem sync_directory_unsupported_not_atomic (cfg : SyncConfig) (fs : FS)
    (src dest : Path) (operation : String)
    (h1 : operation ≠ "copy") (h2 : operation ≠ "sync") :
    (sync_directory cfg fs src dest operation).2.2
      = .error (.unsupportedOperation operation) ∧
    (sync_directory cfg fs src dest operation).2.1 = [] ∧
    ((sync_directory cfg fs src dest operation).1).hasDir dest = true ∧
    ∀ p, p ∈ filesUnder fs src → mediaExtHit cfg p = true →
      ((sync_directory cfg fs src dest operation).1).hasFile (strmPathOf p) = true := by
  have e : sync_directory cfg fs src dest operation
      = ((generate_strm_for_dir cfg (fs.ensureDir dest) src).1, [],
          .error (.unsupportedOperation operation)) := by
    unfold sync_directory
    simp only [if_neg h1, if_neg h2]
  refine ⟨by rw [e], by rw [e], ?_, ?_⟩
  · rw [e]
    show ((generate_strm_for_dir cfg (fs.ensureDir dest) src).1).hasDir dest = true
    unfold generate_strm_for_dir FS.hasDir
    rw [genFold_dirs]
    exact ensureDir_hasDir fs dest
  · intro p hmem hm
    rw [e]
    show ((generate_strm_for_dir cfg (fs.ensureDir dest) src).1).hasFile (strmPathOf p) = true
    unfold generate_strm_for_dir
    rw [filesUnder_ensureDir]
    exact genFold_covers cfg (filesUnder fs src) (fs.ensureDir dest, []) p hmem hm

/-- The filesystem of end-to-end scenario 1: a source tree holding a media
file `src/video.mp4` and an ignored file `src/notes.txt`. -/
def scenarioFS : FS :=
  ⟨[(["src", "video.mp4"], "videodata"), (["src", "notes.txt"], "notesdata")], [["src"]]⟩

/-- Witness for C10: a concrete `move` operation fails as unsupported after
the placeholder for `src/video.mp4` was already generated and the
destination directory ensured. -/
theorem sync_directory_unsupported_not_atomic_witness :
    (sync_directory watchCfg scenarioFS ["src"] ["dst"] "move").2.2
      = .error (.unsupportedOperation "move") ∧
    ((sync_directory watchCfg scenarioFS ["src"] ["dst"] "move").1).hasDir ["dst"] = true ∧
    ((sync_directory watchCfg scenarioFS ["src"] ["dst"] "move").1).hasFile
      (strmPathOf ["src", "video.mp4"]) = true := by
  have h := sync_directory_unsupported_not_atomic watchCfg scenarioFS ["src"] ["dst"] "move"
    (by decide) (by decide)
  exact ⟨h.1, h.2.2.1, h.2.2.2 ["src", "video.mp4"] (by decide) (by decide)⟩

/-- C3 counterexample.  Running `SyncDirectory(src, dst, Copy)` on the
scenario-1 tree transfers the ignored file: `dst/notes.txt` exists
afterwards, refuting the claim that files on the ignore list are not
transferred (the replication excludes only the media suffixes; the ignore
rules play no role in `sync_directory`). -/
theorem ignored_file_transferred_counterexample :
    ((sync_directory watchCfg scenarioFS ["src"] ["dst"] "copy").1).hasFile
      ["dst", "notes.txt"] = true := by
  decide

/-- C3 amended: after `SyncDirectory(src, dst, Copy)` on the scenario-1
tree, `dst/video.strm` exists with content equal to `video.mp4`'s source
path, and the media payload `dst/video.mp4` is not transferred — but
`dst/notes.txt` is transferred: the ignore list does not restrict the bulk
replication. -/
theorem sync_directory_copy_scenario :
    ((sync_directory watchCfg scenarioFS ["src"] ["dst"] "copy").1).lookupFile
      ["dst", "video.strm"] = some "src/video.mp4" ∧
    ((sync_directory watchCfg scenarioFS ["src"] ["dst"] "copy").1).hasFile
      ["dst", "video.mp4"] = false ∧
    ((sync_directory watchCfg scenarioFS ["src"] ["dst"] "copy").1).hasFile
      ["dst", "notes.txt"] = true ∧
    (sync_directory watchCfg scenarioFS ["src"] ["dst"] "copy").2.2 = .ok () := by
  refine ⟨by decide, by decide, by decide, by rfl⟩

/-! ## DirSyncHelper (src/infrastructure/fs/dir_sync_helper.rs)

The rsync-based directory sync used by the guard-file precondition.  The
configuration mirrors `DirSyncConfig`; `sourceSsh`/`destSsh` hold the
already-built `to_rsync_arg` strings of the two locations.  `existing` is
the set of paths present on the local filesystem.  The result pairs the
outcome (on success, the argument list of the rsync command that would run)
with the number of transfer-tool processes spawned. -/

structure DirSyncConfig where
  sourcePath : String
  sourceSsh : Option String
  destPath : String
  destSsh : Option String
  strictMode : Bool
  includeSuffixes : List String
  excludeSuffixes : List String
  excludeRegex : Option String
  excludeRegexValid : Bool
  guardFile : Option String
deriving Repr

def check_guard_file (c : DirSyncConfig) (existing : List String) : Except String Unit :=
  match c.guardFile with
  | some g =>
    if existing.contains g then .ok ()
    else .error ("Guard file " ++ g ++ " does not exist, sync aborted.")
  | none => .ok ()

def check_source_dir (c : DirSyncConfig) (existing : List String) : Except String Unit :=
  if c.sourceSsh.isNone && !(existing.contains c.sourcePath) then
    .error ("Source path " ++ c.sourcePath ++ " does not exist, sync aborted.")
  else .ok ()

/-- `DirSyncHelper::build_rsync_command`. -/
def build_dir_rsync_command (c : DirSyncConfig) : List String :=
  ["-a", "--info=progress2", "-v"]
    ++ (match c.destSsh with
        | some s => ["-e", s]
        | none =>
          match c.sourceSsh with
          | some s => ["-e", s]
          | none => [])
    ++ (if c.strictMode then ["--delete"] else [])
    ++ (if !c.includeSuffixes.isEmpty then
          ["--include=*/"] ++ c.includeSuffixes.map (fun s => "--include=*." ++ s)
            ++ ["--exclude=*"]
        else if !c.excludeSuffixes.isEmpty then
          c.excludeSuffixes.map (fun s => "--exclude=*." ++ s)
        else [])
    ++ (match c.excludeRegex with
        | some r => if c.excludeRegexValid then ["--exclude=" ++ r] else []
        | none => [])
    ++ [c.sourcePath, c.destPath]

/-- `DirSyncHelper::sync`: guard-file check, then source-dir check, then
spawn rsync.  The second component counts spawned transfer processes. -/
def dir_sync (c : DirSyncConfig) (existing : List String) :
    Except String (List String) × Nat :=
  match check_guard_file c existing with
  | .error e => (.error e, 0)
  | .ok () =>
    match check_source_dir c existing with
    | .error e => (.error e, 0)
    | .ok () => (.ok (build_dir_rsync_command c), 1)

/-- C5: whenever a guard file is configured and absent from the local
filesystem, the sync aborts with a descriptive error naming the guard file,
with zero transfer-tool processes spawned and no transfer side effects.
(The guard-file precondition lives in `DirSyncHelper`; `FileSync`'s own
`sync_directory` has no guard-file configuration at all, so the claim is
about this helper.) -/
theorem guard_file_missing_aborts (c : DirSyncConfig) (existing : List String)
    (g : String) (h1 : c.guardFile = some g) (h2 : existing.contains g = false) :
    dir_sync c existing
      = (.error ("Guard file " ++ g ++ " does not exist, sync aborted."), 0) := by
  unfold dir_sync check_guard_file
  rw [h1]
  have h3 : ¬ (g ∈ existing) := by simpa using h2
  simp [h3]

/-- Witness for C5 at a concrete configuration with a missing guard file. -/
theorem guard_file_missing_aborts_witness :
    dir_sync
      { sourcePath := "/data/src/"
        sourceSsh := none
        destPath := "/data/dst/"
        destSsh := none
        strictMode := false
        includeSuffixes := []
        excludeSuffixes := []
        excludeRegex := none
        excludeRegexValid := false
        guardFile := some "/nonexistent/guard.txt" }
      ["/data/src/", "/data/dst/"]
      = (.error ("Guard file " ++ "/nonexistent/guard.txt"
          ++ " does not exist, sync aborted."), 0) :=
  guard_file_missing_aborts _ _ "/nonexistent/guard.txt" rfl (by decide)

/-! ## Debounced watcher (src/infrastructure/fs/watcher.rs)

`FileWatcher` holds a lifecycle state, an optional notify subscription, an
optional callback, a channel whose receiver is consumed when the worker task
is spawned, and the spawned coalescing worker.  The worker task's loop state
is `last_event`; crucially, the spawned closure captures only the debounce
interval, a clone of the callback slot and the exit flag — it has no access
to the watcher's `state` field.  The directory-creation side effect of
`init_watcher` and the logging are outside the state modelled here. -/

inductive WatcherState where
  | Running
  | Paused
  | Stopped
deriving DecidableEq, Repr

structure DebouncedWatcher where
  state : WatcherState
  debounceMs : Nat
  hasWatcher : Bool
  callbackSet : Bool
  eventRxAvailable : Bool
  workerAlive : Bool
  workerCallback : Bool
  lastEvent : Option EventKind
  shouldExit : Bool
deriving DecidableEq, Repr

/-- `FileWatcher::new`: starts Stopped, with the debounce interval clamped
to at least two seconds. -/
def newWatcher (debounceMs : Nat) : DebouncedWatcher :=
  { state := .Stopped
    debounceMs := if debounceMs < 2000 then 2000 else debounceMs
    hasWatcher := false
    callbackSet := false
    eventRxAvailable := true
    workerAlive := false
    workerCallback := false
    lastEvent := none
    shouldExit := false }

/-- `FileWatcher::set_callback` (replaces any existing callback; a worker
spawned earlier keeps the clone it captured). -/
def set_callback (w : DebouncedWatcher) : DebouncedWatcher :=
  { w with callbackSet := true }

/-- `FileWatcher::start_event_processor`: a no-op if the worker handle is
set; otherwise takes the event receiver — panicking (`expect`) if it was
already taken — and spawns the coalescing task, which captures the current
callback slot. -/
def start_event_processor (w : DebouncedWatcher) : Except String DebouncedWatcher :=
  if w.workerAlive then .ok w
  else if w.eventRxAvailable then
    .ok { w with
      workerAlive := true
      workerCallback := w.callbackSet
      eventRxAvailable := false }
  else .error "Event receiver already taken"

/-- `FileWatcher::init_watcher`: only effective from Stopped; subscribes the
notify watcher, moves to Running, then starts the event processor. -/
def init_watcher (w : DebouncedWatcher) : Except String DebouncedWatcher :=
  if w.state ≠ .Stopped then .ok w
  else start_event_processor { w with hasWatcher := true, state := .Running }

/-- `FileWatcher::resume`: Paused → Running; Stopped → (re)initialise; no
effect when Running. -/
def resume (w : DebouncedWatcher) : Except String DebouncedWatcher :=
  if w.state = .Paused then .ok { w with state := .Running }
  else if w.state = .Stopped then init_watcher w
  else .ok w

/-- `FileWatcher::pause`: only effective when Running. -/
def pause (w : DebouncedWatcher) : DebouncedWatcher :=
  if w.state = .Running then { w with state := .Paused } else w

/-- `FileWatcher::stop`: from any non-Stopped state, drops the notify
subscription and aborts the worker task. -/
def stop (w : DebouncedWatcher) : DebouncedWatcher :=
  if w.state ≠ .Stopped then
    { w with state := .Stopped, hasWatcher := false, workerAlive := false }
  else w

/-- An event draining from the channel into the worker's `last_event`
(the select arm `Some(event) = stream.next()`). -/
def arrive (w : DebouncedWatcher) (k : EventKind) : DebouncedWatcher :=
  if w.workerAlive then { w with lastEvent := some k } else w

/-- A debounce-timer expiry (the select arm `_ = sleep(debounce_time)`): if
an event was observed since the last tick, invoke the callback captured at
spawn time with that event's kind — the watcher's `state` field is never
consulted — and clear `last_event`.  Returns the invocations made. -/
def tick (w : DebouncedWatcher) : DebouncedWatcher × List EventKind :=
  if w.workerAlive then
    match w.lastEvent with
    | some k => ({ w with lastEvent := none }, if w.workerCallback then [k] else [])
    | none => (w, [])
  else (w, [])

/-- The watcher of the concrete C2/C9 runs: callback registered, then
started (fresh instance), i.e. the `.ok` result of `resume` after
`set_callback`. -/
def startedWatcher : DebouncedWatcher :=
  { state := .Running
    debounceMs := 3000
    hasWatcher := true
    callbackSet := true
    eventRxAvailable := false
    workerAlive := true
    workerCallback := true
    lastEvent := none
    shouldExit := false }

/-- C2: the code contradicts the claim.  `resume` on the fresh
callback-carrying watcher yields exactly `startedWatcher`; pausing it sets
the state to Paused, yet an event arriving while Paused still produces a
callback invocation at the next debounce tick: the coalescing task never
reads the watcher state, so pause does not suppress callbacks. -/
theorem paused_watcher_still_invokes_callback :
    resume (set_callback (newWatcher 3000)) = .ok startedWatcher ∧
    (pause startedWatcher).state = .Paused ∧
    (tick (arrive (pause startedWatcher) .Created)).2 = [.Created] := by
  refine ⟨by rfl, by decide, by decide⟩

/-- C7: within one debounce window starting with no pending event, N ≥ 1
arrivals followed by the window's tick produce exactly one callback
invocation carrying the last arrival's kind, and zero arrivals produce zero
invocations; the pending slot is clear again after the tick. -/
theorem debounce_window_collapses (w : DebouncedWatcher) (ks : List EventKind)
    (h1 : w.workerAlive = true) (h2 : w.workerCallback = true)
    (h3 : w.lastEvent = none) :
    (tick (ks.foldl arrive w)).2
      = (match ks.getLast? with | some k => [k] | none => []) ∧
    ((tick (ks.foldl arrive w)).1).lastEvent = none := by
  have harr : ∀ (l : List EventKind) (v : DebouncedWatcher), v.workerAlive = true →
      l.foldl arrive v
        = { v with lastEvent := match l.getLast? with | some k => some k | none => v.lastEvent } := by
    intro l
    induction l with
    | nil => intro v hv; simp
    | cons k rest ih =>
      intro v hv
      rw [List.foldl_cons]
      have hv2 : (arrive v k).workerAlive = true := by simp [arrive, hv]
      rw [ih (arrive v k) hv2]
      cases rest with
      | nil => simp [arrive, hv]
      | cons b t =>
        have hne : (b :: t).getLast?.isSome := by
          simp [List.getLast?_isSome]
        cases hbt : (b :: t).getLast? with
        | none => rw [hbt] at hne; simp at hne
        | some x =>
          rw [List.getLast?_cons_cons, hbt]
          simp [arrive, hv]
  rw [harr ks w h1]
  cases hk : ks.getLast? with
  | none => simp [tick, h1, h3]
  | some k => simp [tick, h1, h2]

/-- Witness for C7: three rapid events in one window collapse to one
invocation with the last kind; an empty window fires nothing. -/
theorem debounce_window_collapses_witness :
    (tick ([EventKind.Created, .Modified, .Removed].foldl arrive startedWatcher)).2
      = [.Removed] ∧
    (tick (([] : List EventKind).foldl arrive startedWatcher)).2 = [] := by
  have h1 := debounce_window_collapses startedWatcher [.Created, .Modified, .Removed]
    (by decide) (by decide) (by decide)
  have h2 := debounce_window_collapses startedWatcher [] (by decide) (by decide) (by decide)
  exact ⟨h1.1, h2.1⟩

/-- C9 counterexample: a freshly constructed watcher is in the Stopped
state, and `resume` moves it out of Stopped into Running — so transitions do
leave the Stopped state on a given instance (initial start is exactly such a
transition). -/
theorem resume_leaves_stopped_counterexample :
    (newWatcher 3000).state = .Stopped ∧
    resume (set_callback (newWatcher 3000)) = .ok startedWatcher ∧
    startedWatcher.state = .Running := by
  refine ⟨by decide, by rfl, by decide⟩

/-- C9 amended: Resume is a no-op when Running; Pause changes nothing
unless Running; Stop is idempotent and Pause/Stop never leave Stopped; the
only transition out of Stopped is Resume's (re)initialisation, which
succeeds only while the event receiver is still available (fresh instance) —
after a Stop of a previously started watcher the receiver is consumed, so
Resume panics (`expect`) instead of resuming. -/
theorem watcher_lifecycle_laws (w : DebouncedWatcher) :
    (w.state = .Running → resume w = .ok w) ∧
    (w.state ≠ .Running → pause w = w) ∧
    stop (stop w) = stop w ∧
    (w.state = .Stopped → pause w = w ∧ stop w = w) ∧
    (w.state = .Stopped → w.workerAlive = false → w.eventRxAvailable = false →
      resume w = .error "Event receiver already taken") := by
  refine ⟨?_, ?_, ?_, ?_, ?_⟩
  · intro h
    unfold resume
    rw [h]
    simp
  · intro h
    unfold pause
    simp [h]
  · unfold stop
    by_cases h : w.state = .Stopped
    · simp [h]
    · simp [h]
  · intro h
    constructor
    · unfold pause
      rw [h]
      simp
    · unfold stop
      rw [h]
      simp
  · intro h hw hr
    unfold resume init_watcher start_event_processor
    rw [h]
    simp [hw, hr]

/-- Witness for the amended C9 at concrete states: a running watcher, a
paused watcher, and a stopped-after-running watcher. -/
theorem watcher_lifecycle_laws_witness :
    resume startedWatcher = .ok startedWatcher ∧
    pause (stop startedWatcher) = stop startedWatcher ∧
    stop (stop startedWatcher) = stop startedWatcher ∧
    resume (stop startedWatcher) = .error "Event receiver already taken" := by
  have h1 := (watcher_lifecycle_laws startedWatcher).1 (by decide)
  have h2 := (watcher_lifecycle_laws (stop startedWatcher)).2.2.2.1 (by decide)
  have h3 := (watcher_lifecycle_laws startedWatcher).2.2.1
  have h4 := (watcher_lifecycle_laws (stop startedWatcher)).2.2.2.2
    (by decide) (by decide) (by decide)
  exact ⟨h1, h2.1, h3, h4⟩
